import Mathlib

/-
Verification of the Blazemark static blog generator (blazemark.py).

This file gives a shallow embedding of the incremental build pipeline:
front-matter parsing, change detection against the cache, parallel render
dispatch and fan-in, the plugin after-render fold, taxonomy aggregation and
the output writes, and proves or refutes the frozen claims about it.

External collaborators of the source (the markdown converter cmarkgfm, the
jinja2 templating engine, sha1, os clocks and cpu counts) are treated as
opaque pure functions and appear as parameters of the model, exactly as the
specification designates them. File contents are part of the explicit input
(a Doc carries the raw text the orchestrator and the worker both read).
-/

namespace Blazemark

/-! ## String utilities (Python semantics) -/

/-- Lexicographic comparison of character lists; models comparison of path
strings used by sorted() over paths. -/
def lexLe : List Char → List Char → Bool
  | [], _ => true
  | _ :: _, [] => false
  | a :: as, b :: bs => if a = b then lexLe as bs else decide (a < b)

/-- String comparison built on lexLe. -/
def strLeB (a b : String) : Bool := lexLe a.toList b.toList

/-- Python str.startswith on character lists, via isPrefixOf. -/
def pyStartswith (pre s : String) : Bool := pre.toList.isPrefixOf s.toList

/-- Find the first occurrence of sep in s; return the segments before and
after it.  Support for Python str.split(sep, maxsplit). -/
def splitAtSep (sep : List Char) : List Char → Option (List Char × List Char)
  | [] => if sep.isEmpty then some ([], []) else none
  | c :: rest =>
    if sep.isPrefixOf (c :: rest) then some ([], (c :: rest).drop sep.length)
    else (splitAtSep sep rest).map (fun pr => (c :: pr.1, pr.2))

/-- Python str.split(sep, maxsplit) on character lists: split on the leftmost
occurrences of sep, at most maxsplit times. -/
def pySplitL (sep : List Char) : Nat → List Char → List (List Char)
  | 0, s => [s]
  | n + 1, s =>
    match splitAtSep sep s with
    | none => [s]
    | some (pre, post) => pre :: pySplitL sep n post

/-- Python str.split(sep, maxsplit) on strings. -/
def pySplit (sep : String) (maxsplit : Nat) (s : String) : List String :=
  (pySplitL sep.toList maxsplit s.toList).map (fun l => String.mk l)

/-- Python str.lstrip for the newline character, as used on the body segment. -/
def lstripNL (s : String) : String := String.mk (s.toList.dropWhile (fun c => c = '\n'))

/-- Python substring containment: pat in s for strings is contiguous substring
containment (the meaning the source relies on when a tags field is a scalar
string). -/
def isSubstrL : List Char → List Char → Bool
  | p, [] => p.isEmpty
  | p, c :: t => p.isPrefixOf (c :: t) || isSubstrL p t

/-- Python x in s for strings. -/
def pyInStr (pat s : String) : Bool := isSubstrL pat.toList s.toList

/-- Last path component: the characters after the final slash
(pathlib Path.name). -/
def lastComponentL (cs : List Char) : List Char :=
  cs.foldl (fun acc c => if c = '/' then [] else acc ++ [c]) []

/-- Index of the last dot in the list, scanning left to right and keeping the
latest hit (Python str.rfind of a dot). -/
def rfindDotAux : List Char → Nat → Option Nat → Option Nat
  | [], _, acc => acc
  | c :: rest, i, acc => rfindDotAux rest (i + 1) (if c = '.' then some i else acc)

/-- pathlib Path.stem: the final component with its last suffix removed; the
suffix only counts when the last dot sits strictly inside the name
(0 < i < len - 1, matching the pathlib source). -/
def pathStem (p : String) : String :=
  let name := lastComponentL p.toList
  match rfindDotAux name 0 none with
  | some i => if 0 < i ∧ i < name.length - 1 then String.mk (name.take i) else String.mk name
  | none => String.mk name

/-! ## Front matter (parse_front_matter, blazemark.py lines 46-58) -/

/-- Result of yaml.safe_load on the middle segment: an exception, or a value
that may be None (Python returns None for an empty document).  The mapping
payload is an association list of scalars, enough for every claim. -/
abbrev YamlResult := Except String (Option (List (String × String)))

/-- The source applies meta = yaml.safe_load(parts[1]) or {} inside
try/except with meta = {} on exception; this folds both fallbacks. -/
def yamlMetaOf (r : YamlResult) : List (String × String) :=
  match r with
  | .ok v => v.getD []
  | .error _ => []

/-- parse_front_matter from the source: if the text starts with the delimiter
and splits (maxsplit 2) into three segments, parse the middle segment as yaml
(empty mapping on error, which the source logs) and strip leading newlines
from the remainder; otherwise return the empty mapping and the text
unchanged.  A maxsplit-2 split yields at most three segments, so the
len(parts) >= 3 test of the source is the exact three-element match here. -/
def parse_front_matter (yamlLoad : String → YamlResult) (text : String) :
    List (String × String) × String :=
  if pyStartswith "---" text then
    match pySplit "---" 2 text with
    | [_, p1, p2] => (yamlMetaOf (yamlLoad p1), lstripNL p2)
    | _ => ([], text)
  else ([], text)

/-! ## Worker pool sizing (Blazemark._optimal_workers, lines 135-138) -/

/-- Worker pool sizing from the source: min(cpu_count, max(2, number of
top-level markdown posts)). -/
def optimal_workers (cpu nPosts : Nat) : Nat := min cpu (max 2 nPosts)

/-! ## Slug resolution (render_post_worker line 89, safe_slug line 44) -/

/-- The source computes slug = meta.get("slug") or src_path.stem: a missing
slug and a falsy slug value (the empty string) both fall back to the filename
stem. -/
def resolveSlug (slugField : Option String) (stem : String) : String :=
  match slugField with
  | some s => if s = "" then stem else s
  | none => stem

/-! ## Data model -/

/-- The tags / category field of the front matter: absent, a scalar string,
or a list of strings (the two declared shapes the source normalizes). -/
inductive TagField where
  | absent : TagField
  | scalar : String → TagField
  | list : List String → TagField
deriving DecidableEq, Repr, Inhabited

/-- The parsed front-matter mapping of one document, restricted to the keys
the pipeline reads: draft, date, published, tags, category, slug, title.
Dates are modelled as signed day ordinals relative to 1970-01-01, so the
sort default datetime(1970, 1, 1) of the source is the ordinal 0 and dates
before the epoch are negative. -/
structure PostMeta where
  draft : Bool := false
  date : Option Int := none
  published : Option String := none
  tags : TagField := .absent
  category : TagField := .absent
  slugField : Option String := none
  title : Option String := none
deriving DecidableEq, Repr, Inhabited

/-- A discovered source document: its path, the full raw file text (front
matter included), and the meta/body that parse_front_matter yields on that
text.  The orchestrator and the worker both read the same file, so the model
carries the text once. -/
structure Doc where
  path : String
  text : String
  meta : PostMeta := {}
  body : String := ""
deriving DecidableEq, Repr, Inhabited

/-- One entry of the persisted cache: {mtime, hash, output}
(blazemark.py lines 230-234). -/
structure CacheEntry where
  mtime : Int
  hash : String
  output : String
deriving DecidableEq, Repr, Inhabited

/-- The posts mapping of the cache file, source path to entry; association
list with Python-dict update semantics. -/
abbrev Cache := List (String × CacheEntry)

/-- The Post dataclass handed to plugins (lines 20-28, constructed at
lines 215-220; the title falls back to the slug and the date field is read
from the published key, exactly as the source does). -/
structure Post where
  src : String
  slug : String
  title : String
  date : String
  content : String
  meta : PostMeta
  url : String
deriving DecidableEq, Repr, Inhabited

/-- An after-render plugin hook: Post and current html to new html, or an
exception. -/
abbrev PluginFun := Post → String → Except String String

/-- The worker result record (render_post_worker lines 107-113): the source
returns meta plus the raw body under content_raw; the model keeps them as
separate fields, and also keeps the raw text the worker read so the
orchestrator re-read at line 232 is the same value. -/
structure RenderResult where
  src : String
  slug : String
  html : String
  meta : PostMeta
  contentRaw : String
  rawText : String
  url : String
deriving DecidableEq, Repr, Inhabited

/-- Site-wide metadata built once per build from the configuration
(lines 174-182); year comes from the clock at build start. -/
structure SiteMeta where
  title : String := "Blazemark Blog"
  subtitle : String := ""
  description : String := ""
  author : String := ""
  url : String := ""
  language : String := "en"
  year : Int := 2025
deriving DecidableEq, Repr, Inhabited

/-- The record handed to a post page: one entry of raw_post_list
(lines 237-240). -/
structure PostRef where
  meta : PostMeta
  url : String
deriving DecidableEq, Repr, Inhabited

/-- The opaque jinja templates of the theme, one field per render call shape
of the source (index.html at line 264, tags.html with a tag at line 279 and
as the tag index at line 290, category.html likewise). -/
structure Templates where
  index : SiteMeta → List PostRef → List String → List String → String
  tagPage : SiteMeta → String → List PostRef → String
  tagIndex : SiteMeta → List String → String
  catPage : SiteMeta → String → List PostRef → String
  catIndex : SiteMeta → List String → String

/-- The opaque collaborators of one build: the hash function (sha1 hexdigest
of the raw text), file mtimes, the site metadata, the markdown-plus-template
pipeline of the render worker (cmarkgfm, the code-block language rewrite and
the post.html render, which can raise), the theme templates and the loaded
plugin list. -/
structure BuildEnv where
  hashFn : String → String
  mtimeOf : String → Int
  site : SiteMeta
  workerHtml : SiteMeta → Doc → Except String String
  tpl : Templates
  plugins : List PluginFun

/-- Decidable equality of Except values, so concrete build outcomes can be
evaluated. -/
instance exceptDecEq {ε α : Type} [DecidableEq ε] [DecidableEq α] :
    DecidableEq (Except ε α) := fun x y =>
  match x, y with
  | .ok a, .ok b => decidable_of_iff (a = b) (by simp)
  | .ok _, .error _ => .isFalse (by simp)
  | .error _, .ok _ => .isFalse (by simp)
  | .error a, .error b => decidable_of_iff (a = b) (by simp)

/-! ## Association-list operations with Python dict semantics -/

/-- Lookup by key. -/
def lookupS {β : Type} : List (String × β) → String → Option β
  | [], _ => none
  | (k, v) :: rest, q => if k = q then some v else lookupS rest q

/-- Insert or update in place, preserving insertion order like a Python
dict. -/
def upsert {β : Type} : List (String × β) → String → β → List (String × β)
  | [], k, v => [(k, v)]
  | (k', v') :: rest, k, v =>
    if k' = k then (k, v) :: rest else (k', v') :: upsert rest k v

/-! ## Stable sorting (Python sorted is a stable sort) -/

/-- Insert x before the first element y with r x y; the stable insertion
step. -/
def insertB {α : Type} (r : α → α → Bool) (x : α) : List α → List α
  | [] => [x]
  | y :: ys => if r x y then x :: y :: ys else y :: insertB r x ys

/-- Stable insertion sort: for a total preorder r the output is the unique
stable sort, which is what Python sorted produces. -/
def sortB {α : Type} (r : α → α → Bool) : List α → List α
  | [] => []
  | x :: xs => insertB r x (sortB r xs)

/-! ## Render worker (render_post_worker, lines 83-113) -/

/-- The worker re-reads and re-parses the source (the Doc carries that very
text and parse), resolves the slug as meta.get("slug") or stem, converts and
templates through the opaque workerHtml, and returns the result record.  Any
exception inside the worker surfaces as the error of the future. -/
def render_post_worker (workerHtml : SiteMeta → Doc → Except String String)
    (site : SiteMeta) (d : Doc) : Except String RenderResult :=
  let slug := resolveSlug d.meta.slugField (pathStem d.path)
  match workerHtml site d with
  | .error e => .error e
  | .ok h =>
    .ok { src := d.path, slug := slug, html := h, meta := d.meta,
          contentRaw := d.body, rawText := d.text,
          url := "/" ++ slug ++ "/index.html" }

/-! ## Change detection and dispatch (Blazemark.build, lines 187-203) -/

/-- Path order on documents for discovery. -/
def pathLeB (a b : Doc) : Bool := strLeB a.path b.path

/-- discover_posts_and_pages (lines 149-153): top-level posts sorted by
path, then the pages subdirectory sorted by path. -/
def discover (posts pages : List Doc) : List Doc :=
  sortB pathLeB posts ++ sortB pathLeB pages

/-- The cache consult of the loop at lines 193-195: force, or no entry for
the path, or the stored hash differs from the hash of the current full raw
text. -/
def needsRender (hashFn : String → String) (cache : Cache) (force : Bool)
    (d : Doc) : Bool :=
  force ||
    match lookupS cache d.path with
    | none => true
    | some e => e.hash != hashFn d.text

/-- The whole per-file decision of lines 188-196: drafts are skipped before
the cache is consulted unless force is set; the remaining documents are
dispatched when needsRender holds. -/
def taskPred (hashFn : String → String) (cache : Cache) (force : Bool)
    (d : Doc) : Bool :=
  !(d.meta.draft && !force) && needsRender hashFn cache force d

/-- The list of documents dispatched to the worker pool for one build. -/
def buildTasks (hashFn : String → String) (force : Bool) (cache : Cache)
    (posts pages : List Doc) : List Doc :=
  (discover posts pages).filter (taskPred hashFn cache force)

/-- as_completed fan-in order: the futures are collected in completion
order, modelled by an index permutation over the dispatched list. -/
def applyOrder {α : Type} (order : List Nat) (l : List α) : List α :=
  order.filterMap (fun i => l.get? i)

/-- The collection loop at lines 202-203: results.append(fut.result()).
fut.result() re-raises the worker exception in the orchestrator, where
nothing catches it, so the first failed future in completion order aborts
the whole build. -/
def collectResults : List (Except String RenderResult) →
    Except String (List RenderResult)
  | [] => .ok []
  | .error e :: _ => .error e
  | .ok r :: rest =>
    match collectResults rest with
    | .error e => .error e
    | .ok rs => .ok (r :: rs)

/-! ## Plugin after-render fold (lines 213-224) -/

/-- One guarded hook call: the assignment res["html"] = p.on_after_render(...)
sits inside the try, so when the hook raises the html keeps its previous
value (the source logs the exception and moves on). -/
def pluginStep (post : Post) (p : PluginFun) (h : String) : String :=
  match p post h with
  | .ok h' => h'
  | .error _ => h

/-- The for-loop over self.plugins: a left fold of pluginStep in
registration order. -/
def pluginFold (plugins : List PluginFun) (post : Post) (h : String) : String :=
  plugins.foldl (fun acc p => pluginStep post p acc) h

/-- The Post record built for the hooks at lines 215-220. -/
def mkPost (res : RenderResult) : Post :=
  { src := res.src, slug := res.slug,
    title := res.meta.title.getD res.slug,
    date := res.meta.published.getD "",
    content := res.contentRaw, meta := res.meta, url := res.url }

/-! ## Taxonomy normalization and membership (lines 241-248, 276, 302) -/

/-- The collection-phase normalization of lines 241-248: meta.get yields []
when the field is absent, a scalar string is wrapped into a singleton list,
a list passes through. -/
def normalizeField (f : TagField) : List String :=
  match f with
  | .absent => []
  | .scalar s => [s]
  | .list l => l

/-- The membership filters at lines 276 and 302 test
tag in p["meta"].get("tags", []) on the UN-normalized field, so for a scalar
string Python substring containment decides membership. -/
def pyInField (x : String) (f : TagField) : Bool :=
  match f with
  | .absent => false
  | .scalar s => pyInStr x s
  | .list l => l.contains x

/-- Python set.update over an insertion-ordered duplicate-free list. -/
def setUnion (s : List String) (xs : List String) : List String :=
  xs.foldl (fun acc x => if acc.contains x then acc else acc ++ [x]) s

/-- The members of one tag page: the list comprehension at line 276. -/
def tagMembers (raw : List PostRef) (tag : String) : List PostRef :=
  raw.filter (fun p => pyInField tag p.meta.tags)

/-- The members of one category page: the list comprehension at line 302. -/
def catMembers (raw : List PostRef) (cat : String) : List PostRef :=
  raw.filter (fun p => pyInField cat p.meta.category)

/-! ## Date ordering for the home index (lines 256-260) -/

/-- The sort key of line 258: the declared date, defaulting to
datetime(1970, 1, 1), here the ordinal 0. -/
def dateKey (p : PostRef) : Int := p.meta.date.getD 0

/-- sorted(key=..., reverse=True) is the stable sort in which p precedes q
exactly when key p >= key q. -/
def dateRel (p q : PostRef) : Bool := decide (dateKey q ≤ dateKey p)

/-! ## Phase 2: per-result plugin fold, writes, cache update (lines 206-248) -/

/-- The sequential state threaded through the result loop. -/
structure P2State where
  rawPosts : List PostRef
  allTags : List String
  allCats : List String
  cache : Cache
  outputs : List (String × String)

/-- One iteration of the result loop: the plugin fold runs first (lines
213-224, before the draft test); a non-draft result (or any result under
force) is written to public/slug/index.html, gets a fresh cache entry whose
hash re-reads the unchanged file, and contributes to raw_post_list and the
tag and category sets. -/
def phase2Step (hashFn : String → String) (mtimeOf : String → Int)
    (plugins : List PluginFun) (force : Bool) (st : P2State)
    (res : RenderResult) : P2State :=
  let outPath := "public/" ++ res.slug ++ "/index.html"
  let html := pluginFold plugins (mkPost res) res.html
  if !res.meta.draft || force then
    { rawPosts := st.rawPosts ++ [{ meta := res.meta, url := "/" ++ res.slug ++ "/index.html" }],
      allTags := setUnion st.allTags (normalizeField res.meta.tags),
      allCats := setUnion st.allCats (normalizeField res.meta.category),
      cache := upsert st.cache res.src
        { mtime := mtimeOf res.src, hash := hashFn res.rawText, output := outPath },
      outputs := upsert st.outputs outPath html }
  else st

/-- Everything the build leaves behind, observable in the model: the files
written this build (path to contents, later writes overwriting earlier
ones), the cache as persisted by _save_cache, the collected raw post list,
the sorted home-index list, the sorted tag and category name lists, the
member lists behind each tag and category page, and the number of documents
dispatched for render. -/
structure BuildResult where
  renderedCount : Nat
  rawPosts : List PostRef
  postList : List PostRef
  allTags : List String
  allCats : List String
  tagPages : List (String × List PostRef)
  catPages : List (String × List PostRef)
  outputs : List (String × String)
  cache : Cache
deriving DecidableEq, Repr, Inhabited

/-- The sequential tail of Blazemark.build after fan-in (lines 206-326):
fold phase2Step over the collected results, sort the home-index list by date
descending, write the home index, one page per tag, the tag index, one page
per category and the category index, and persist the cache.  The static-file
copy (line 250) and the build-finished hooks (lines 330-334) write outside
the modelled output set and are omitted; CPython iterates the tag and
category sets in an unspecified order, so the model iterates them in sorted
order, which writes the same set of files. -/
def assemble (env : BuildEnv) (force : Bool) (cache0 : Cache)
    (posts pages : List Doc) (results : List RenderResult) : BuildResult :=
  let tasks := buildTasks env.hashFn force cache0 posts pages
  let st := results.foldl (phase2Step env.hashFn env.mtimeOf env.plugins force)
      { rawPosts := [], allTags := [], allCats := [], cache := cache0, outputs := [] }
  let post_list := sortB dateRel st.rawPosts
  let sortedTags := sortB strLeB st.allTags
  let sortedCats := sortB strLeB st.allCats
  let outs1 := upsert st.outputs "public/index.html"
      (env.tpl.index env.site post_list sortedTags sortedCats)
  let tagPages := sortedTags.map (fun t => (t, tagMembers st.rawPosts t))
  let outs2 := tagPages.foldl (fun o tp =>
      upsert o ("public/tag/" ++ tp.1 ++ "/index.html")
        (env.tpl.tagPage env.site tp.1 tp.2)) outs1
  let outs3 := upsert outs2 "public/tag/index.html" (env.tpl.tagIndex env.site sortedTags)
  let catPages := sortedCats.map (fun c => (c, catMembers st.rawPosts c))
  let outs4 := catPages.foldl (fun o cp =>
      upsert o ("public/category/" ++ cp.1 ++ "/index.html")
        (env.tpl.catPage env.site cp.1 cp.2)) outs3
  let outs5 := upsert outs4 "public/category/index.html" (env.tpl.catIndex env.site sortedCats)
  { renderedCount := tasks.length, rawPosts := st.rawPosts, postList := post_list,
    allTags := sortedTags, allCats := sortedCats, tagPages := tagPages,
    catPages := catPages, outputs := outs5, cache := st.cache }

/-- Blazemark.build (lines 172-334) for one invocation: discover, filter
through the draft test and the cache, dispatch the tasks, collect the
futures in completion order (order is the completion permutation), and on
success run the sequential tail.  A worker exception re-raised by
fut.result() propagates out of build, so the whole invocation yields that
error and nothing is written. -/
def build (env : BuildEnv) (force : Bool) (cache0 : Cache)
    (posts pages : List Doc) (order : List Nat) : Except String BuildResult :=
  match collectResults (applyOrder order
      ((buildTasks env.hashFn force cache0 posts pages).map
        (render_post_worker env.workerHtml env.site))) with
  | .error e => .error e
  | .ok results => .ok (assemble env force cache0 posts pages results)

/-! ## Claim-side reference definitions

These two definitions follow the WORDS of the spec and the claims, not the
source; they exist only to be compared against the source-derived model. -/

/-- The order the spec asserts for dates: a missing date is the oldest
possible value, so none is below every concrete date. -/
def claimDateLe : Option Int → Option Int → Bool
  | none, _ => true
  | some _, none => false
  | some a, some b => decide (a ≤ b)

/-- The home-index order C3 claims: descending by declared date with a
missing date as the oldest possible value (ties, under a stable sort, keep
the base order). -/
def claimDateRel (p q : PostRef) : Bool := claimDateLe q.meta.date p.meta.date

/-- The re-render condition C5 claims for every discovered document: force,
or no cache entry for the source path, or the stored hash differs from the
hash of the current full raw text.  It matches needsRender but ignores the
draft gate the source applies first. -/
def claimRendered (hashFn : String → String) (force : Bool) (cache : Cache)
    (d : Doc) : Bool :=
  force ||
    match lookupS cache d.path with
    | none => true
    | some e => e.hash != hashFn d.text

/-! ## Concrete instances for counterexamples and witnesses -/

/-- Concrete injective-enough theme templates: each render records its
arguments in the output string, the way the real templates render the post
list and name lists into html. -/
def joinWith (sep : String) : List String → String
  | [] => ""
  | [s] => s
  | s :: rest => s ++ sep ++ joinWith sep rest

/-- Concrete Templates instance used by the concrete builds. -/
def tplStd : Templates :=
  { index := fun _ posts tags cats =>
      "INDEX|" ++ joinWith "," (posts.map (fun p => p.url)) ++ "|"
        ++ joinWith "," tags ++ "|" ++ joinWith "," cats,
    tagPage := fun _ t ps => "TAG|" ++ t ++ "|" ++ joinWith "," (ps.map (fun p => p.url)),
    tagIndex := fun _ tags => "TAGIDX|" ++ joinWith "," tags,
    catPage := fun _ c ps => "CAT|" ++ c ++ "|" ++ joinWith "," (ps.map (fun p => p.url)),
    catIndex := fun _ cats => "CATIDX|" ++ joinWith "," cats }

/-- Concrete environment: the hash is the identity (a collision-free digest
on the inputs used), mtimes are 0, no plugins, and the worker renders any
document successfully into a string naming its path. -/
def envStd : BuildEnv :=
  { hashFn := fun s => s, mtimeOf := fun _ => 0, site := {},
    workerHtml := fun _ d => .ok ("H:" ++ d.path), tpl := tplStd, plugins := [] }

/-- C1 input: one non-draft post carrying one tag. -/
def docC1 : Doc :=
  { path := "a.md", text := "A1", meta := { tags := .list ["t"] }, body := "bodyA" }

/-- C1 first build: empty cache, the single document is rendered. -/
def c1run1 : Except String BuildResult := build envStd false [] [docC1] [] [0]

/-- C1 second build: same content, the cache of the first run; no document
needs render, so the completion order is empty. -/
def c1run2 : Except String BuildResult :=
  c1run1.bind (fun o => build envStd false o.cache [docC1] [] [])

/-- C2 environment: the worker raises on b.md (a conversion or templating
failure inside the render worker) and succeeds elsewhere. -/
def envFail : BuildEnv :=
  { envStd with workerHtml := fun _ d =>
      if d.path = "b.md" then .error "boom" else .ok ("H:" ++ d.path) }

/-- C2 healthy document. -/
def docC2a : Doc := { path := "a.md", text := "A1" }

/-- C2 failing document. -/
def docC2b : Doc := { path := "b.md", text := "B1" }

/-- C3 meta for a.md: no declared date. -/
def metaC3a : PostMeta := {}

/-- C3 meta for b.md: no declared date. -/
def metaC3b : PostMeta := {}

/-- C3 meta for c.md: dated 1960-01-01, ten years before the epoch, ordinal
-3653. -/
def metaC3c : PostMeta := { date := some (-3653) }

/-- C3 input documents. -/
def docC3a : Doc := { path := "a.md", text := "A1", meta := metaC3a }

/-- C3 input documents. -/
def docC3b : Doc := { path := "b.md", text := "B1", meta := metaC3b }

/-- C3 input documents. -/
def docC3c : Doc := { path := "c.md", text := "C1", meta := metaC3c }

/-- C3 build: all three documents are new; b.md completes first
(completion order 1, 0, 2, a permutation of range 3). -/
def buildC3 : Except String BuildResult :=
  build envStd false [] [docC3a, docC3b, docC3c] [] [1, 0, 2]

/-- The PostRef the build produces for a.md. -/
def prC3a : PostRef := { meta := metaC3a, url := "/a/index.html" }

/-- The PostRef the build produces for b.md. -/
def prC3b : PostRef := { meta := metaC3b, url := "/b/index.html" }

/-- The PostRef the build produces for c.md. -/
def prC3c : PostRef := { meta := metaC3c, url := "/c/index.html" }

/-- A yaml loader that always raises, standing for a malformed structured
block. -/
def yamlFailAll : String → YamlResult := fun _ => .error "bad"

/-- C5 input: a draft document. -/
def docC5 : Doc := { path := "d.md", text := "D1", meta := { draft := true } }

/-- C7 input: a document declaring its tags as the scalar string pythonic. -/
def docC7x : Doc :=
  { path := "px.md", text := "X1", meta := { tags := .scalar "pythonic" } }

/-- C7 input: a document declaring the tag python in list form. -/
def docC7y : Doc :=
  { path := "py.md", text := "Y1", meta := { tags := .list ["python"] } }

/-- C7 build over the two documents. -/
def buildC7 : Except String BuildResult :=
  build envStd false [] [docC7x, docC7y] [] [0, 1]

/-- The PostRef for px.md. -/
def prC7x : PostRef := { meta := docC7x.meta, url := "/px/index.html" }

/-- The PostRef for py.md. -/
def prC7y : PostRef := { meta := docC7y.meta, url := "/py/index.html" }

/-- C9 input: a drafted document. -/
def docC9draft : Doc := { path := "d.md", text := "T-draft", meta := { draft := true } }

/-- C9 first build: the draft is skipped, so nothing is dispatched. -/
def c9run1 : Except String BuildResult := build envStd false [] [docC9draft] [] []

/-- The cache the first C9 build persists. -/
def c9cache1 : Cache :=
  match c9run1 with
  | .ok o => o.cache
  | .error _ => []

/-- C9: the same file after un-drafting; removing draft: true changes the
raw text, hence the hash. -/
def docC9undrafted : Doc := { path := "d.md", text := "T-undrafted", meta := {} }

/-- C9 witness input: a draft next to a plain document. -/
def docC9plain : Doc := { path := "p.md", text := "P1" }

/-- C9 witness build: draft plus plain document, one task. -/
def c9wRun : Except String BuildResult :=
  build envStd false [] [docC9draft, docC9plain] [] [0]

/-- The result of the C9 witness build. -/
def c9wOut : BuildResult :=
  match c9wRun with
  | .ok o => o
  | .error _ => default

/-- C3 witness build and its result. -/
def c3wOut : BuildResult :=
  match buildC3 with
  | .ok o => o
  | .error _ => default

/-- C6 witness: a plugin whose after-render hook raises. -/
def pluginA : PluginFun := fun _ _ => .error "A failed"

/-- C6 witness: a plugin that appends a marker. -/
def pluginB : PluginFun := fun _ h => .ok (h ++ "<B>")

/-- C6 witness Post value. -/
def postC6 : Post :=
  { src := "a.md", slug := "a", title := "a", date := "", content := "",
    meta := {}, url := "/a/index.html" }

/-- C10 witness: a document whose front matter declares slug as the empty
string. -/
def docC10 : Doc :=
  { path := "posts/my-note.md", text := "", meta := { slugField := some "" } }

/-- C10 witness worker result. -/
def c10out : RenderResult :=
  match render_post_worker (fun _ _ => .ok "H") {} docC10 with
  | .ok o => o
  | .error _ => default

/-! ## Helper lemmas: stable insertion sort -/

/-- Inserting permutes: insertB places x somewhere inside l. -/
theorem insertB_perm {α : Type} (r : α → α → Bool) (x : α) :
    ∀ l : List α, List.Perm (insertB r x l) (x :: l)
  | [] => List.Perm.refl _
  | y :: ys => by
    unfold insertB
    cases hxy : r x y with
    | true => simp
    | false =>
      simp only [Bool.false_eq_true, if_false]
      exact ((insertB_perm r x ys).cons y).trans (List.Perm.swap x y ys)

/-- sortB permutes its input. -/
theorem sortB_perm {α : Type} (r : α → α → Bool) :
    ∀ l : List α, List.Perm (sortB r l) l
  | [] => List.Perm.refl _
  | x :: xs => (insertB_perm r x (sortB r xs)).trans ((sortB_perm r xs).cons x)

/-- Membership through insertB. -/
theorem mem_insertB {α : Type} {r : α → α → Bool} {x a : α} {l : List α} :
    a ∈ insertB r x l ↔ a = x ∨ a ∈ l := by
  rw [(insertB_perm r x l).mem_iff, List.mem_cons]

/-- Inserting into a list that is pairwise ordered by a total transitive
boolean relation keeps it pairwise ordered. -/
theorem pairwise_insertB {α : Type} {r : α → α → Bool}
    (total : ∀ a b, r a b = true ∨ r b a = true)
    (htrans : ∀ a b c, r a b = true → r b c = true → r a c = true)
    (x : α) : ∀ l : List α, l.Pairwise (fun a b => r a b = true) →
      (insertB r x l).Pairwise (fun a b => r a b = true)
  | [], _ => by simp [insertB]
  | y :: ys, hp => by
    rw [List.pairwise_cons] at hp
    obtain ⟨hy, hys⟩ := hp
    unfold insertB
    cases hxy : r x y with
    | true =>
      refine List.Pairwise.cons ?_ (List.Pairwise.cons hy hys)
      intro z hz
      rcases List.mem_cons.mp hz with rfl | hz'
      · exact hxy
      · exact htrans _ _ _ hxy (hy z hz')
    | false =>
      simp only [Bool.false_eq_true, if_false]
      refine List.Pairwise.cons ?_ (pairwise_insertB total htrans x ys hys)
      intro z hz
      rcases mem_insertB.mp hz with h1 | hz'
      · rw [h1]
        exact (total x y).resolve_left (by simp [hxy])
      · exact hy z hz'

/-- sortB output is pairwise ordered for a total transitive boolean
relation. -/
theorem sortB_pairwise {α : Type} {r : α → α → Bool}
    (total : ∀ a b, r a b = true ∨ r b a = true)
    (htrans : ∀ a b c, r a b = true → r b c = true → r a c = true) :
    ∀ l : List α, (sortB r l).Pairwise (fun a b => r a b = true)
  | [] => List.Pairwise.nil
  | x :: xs => pairwise_insertB total htrans x (sortB r xs) (sortB_pairwise total htrans xs)

/-- Stability, insertion step, positive case: when x satisfies p and every
element x skips over fails p, the filter sees x first and the rest
unchanged. -/
theorem filter_insertB_pos {α : Type} {r : α → α → Bool} {p : α → Bool} {x : α}
    (hx : p x = true) (hcomp : ∀ y, r x y = false → p y = false) :
    ∀ l : List α, (insertB r x l).filter p = x :: l.filter p
  | [] => by simp [insertB, hx]
  | y :: ys => by
    unfold insertB
    cases hxy : r x y with
    | true => simp [hx]
    | false =>
      have hpy := hcomp y hxy
      simp [hpy, filter_insertB_pos hx hcomp ys]

/-- Stability, insertion step, negative case: an element failing p is
invisible to the filter wherever it is inserted. -/
theorem filter_insertB_neg {α : Type} {r : α → α → Bool} {p : α → Bool} {x : α}
    (hx : p x = false) :
    ∀ l : List α, (insertB r x l).filter p = l.filter p
  | [] => by simp [insertB, hx]
  | y :: ys => by
    unfold insertB
    cases hxy : r x y with
    | true => simp [hx]
    | false =>
      simp only [Bool.false_eq_true, if_false, List.filter_cons]
      cases hpy : p y with
      | true => simp [filter_insertB_neg hx ys]
      | false => simp [filter_insertB_neg hx ys]

/-- Stability of the descending key sort: the elements of any one key value
keep exactly their base order. -/
theorem filter_sortB_key {α : Type} (key : α → Int) (k : Int) :
    ∀ l : List α,
      (sortB (fun a b => decide (key b ≤ key a)) l).filter (fun a => decide (key a = k))
        = l.filter (fun a => decide (key a = k))
  | [] => rfl
  | x :: xs => by
    simp only [sortB]
    by_cases hx : key x = k
    · have hcomp : ∀ y, decide (key y ≤ key x) = false → decide (key y = k) = false := by
        intro y hy
        simp only [decide_eq_false_iff_not] at hy ⊢
        intro hk
        exact hy (by rw [hk, hx])
      rw [@filter_insertB_pos α (fun a b => decide (key b ≤ key a))
            (fun a => decide (key a = k)) x (by simp [hx]) hcomp
            (sortB (fun a b => decide (key b ≤ key a)) xs),
          filter_sortB_key key k xs]
      simp [List.filter_cons, hx]
    · rw [@filter_insertB_neg α (fun a b => decide (key b ≤ key a))
            (fun a => decide (key a = k)) x (by simp [hx])
            (sortB (fun a b => decide (key b ≤ key a)) xs),
          filter_sortB_key key k xs]
      simp [List.filter_cons, hx]

/-! ## Helper lemmas: association lists, fan-in, worker, cache -/

/-- Updating one key leaves lookups of other keys unchanged. -/
theorem lookupS_upsert_ne {β : Type} {l : List (String × β)} {k p : String} {v : β}
    (h : k ≠ p) : lookupS (upsert l k v) p = lookupS l p := by
  induction l with
  | nil => simp [upsert, lookupS, h]
  | cons kv rest ih =>
    obtain ⟨k', v'⟩ := kv
    unfold upsert
    by_cases hk : k' = k
    · subst hk
      simp [lookupS, h]
    · simp [lookupS, hk, ih]

/-- Every result the fan-in loop returns came in as a successful future. -/
theorem collectResults_mem {es : List (Except String RenderResult)}
    {rs : List RenderResult} (h : collectResults es = .ok rs) :
    ∀ r ∈ rs, Except.ok r ∈ es := by
  induction es generalizing rs with
  | nil =>
    simp only [collectResults, Except.ok.injEq] at h
    subst h
    simp
  | cons e rest ih =>
    cases e with
    | error e' => simp [collectResults] at h
    | ok r' =>
      simp only [collectResults] at h
      cases hc : collectResults rest with
      | error e' => rw [hc] at h; exact absurd h (by simp)
      | ok rs' =>
        rw [hc] at h
        simp only [Except.ok.injEq] at h
        subst h
        intro r hr
        rcases List.mem_cons.mp hr with rfl | hr'
        · exact List.mem_cons_self _ _
        · exact List.mem_cons_of_mem _ (ih hc r hr')

/-- Collection in completion order only reorders the dispatched futures. -/
theorem applyOrder_mem {α : Type} {order : List Nat} {l : List α} {a : α}
    (h : a ∈ applyOrder order l) : a ∈ l := by
  unfold applyOrder at h
  rcases List.mem_filterMap.mp h with ⟨i, _, hi⟩
  exact List.get?_mem hi

/-- A successful worker result keeps the source path of its document. -/
theorem worker_src {w : SiteMeta → Doc → Except String String} {s : SiteMeta}
    {d : Doc} {r : RenderResult}
    (h : render_post_worker w s d = .ok r) : r.src = d.path := by
  unfold render_post_worker at h
  cases hw : w s d with
  | error e => rw [hw] at h; exact absurd h (by simp)
  | ok html =>
    rw [hw] at h
    simp only [Except.ok.injEq] at h
    subst h
    rfl

/-- A successful worker result resolves its slug from its own front matter
and path. -/
theorem worker_slug {w : SiteMeta → Doc → Except String String} {s : SiteMeta}
    {d : Doc} {r : RenderResult}
    (h : render_post_worker w s d = .ok r) :
    r.slug = resolveSlug d.meta.slugField (pathStem d.path) := by
  unfold render_post_worker at h
  cases hw : w s d with
  | error e => rw [hw] at h; exact absurd h (by simp)
  | ok html =>
    rw [hw] at h
    simp only [Except.ok.injEq] at h
    subst h
    rfl

/-- The result loop never touches cache rows whose key is the path of no
collected result. -/
theorem phase2_cache_untouched (hf : String → String) (mt : String → Int)
    (plugins : List PluginFun) (force : Bool) :
    ∀ (results : List RenderResult) (st : P2State) (p : String),
      (∀ r ∈ results, r.src ≠ p) →
      lookupS (results.foldl (phase2Step hf mt plugins force) st).cache p
        = lookupS st.cache p
  | [], _, _, _ => rfl
  | r :: rest, st, p, h => by
    rw [List.foldl_cons]
    have hr : r.src ≠ p := h r (List.mem_cons_self r rest)
    have hrest : ∀ x ∈ rest, x.src ≠ p := fun x hx => h x (List.mem_cons_of_mem r hx)
    rw [phase2_cache_untouched hf mt plugins force rest
      (phase2Step hf mt plugins force st r) p hrest]
    unfold phase2Step
    cases hd : (!r.meta.draft || force) with
    | true => exact lookupS_upsert_ne hr
    | false => simp

/-- The cache field of the sequential tail, when no collected result has
path p, equals the incoming cache at p. -/
theorem assemble_cache_untouched (env : BuildEnv) (force : Bool) (cache0 : Cache)
    (posts pages : List Doc) (results : List RenderResult) (p : String)
    (h : ∀ r ∈ results, r.src ≠ p) :
    lookupS (assemble env force cache0 posts pages results).cache p
      = lookupS cache0 p :=
  phase2_cache_untouched env.hashFn env.mtimeOf env.plugins force results
    { rawPosts := [], allTags := [], allCats := [], cache := cache0, outputs := [] } p h

/-- Without force, every dispatched document is a non-draft. -/
theorem mem_buildTasks_not_draft {hf : String → String} {cache : Cache}
    {posts pages : List Doc} {d : Doc}
    (h : d ∈ buildTasks hf false cache posts pages) : d.meta.draft = false := by
  unfold buildTasks at h
  have hp := (List.mem_filter.mp h).2
  unfold taskPred at hp
  cases hd : d.meta.draft
  · rfl
  · rw [hd] at hp; simp at hp

/-! ## The claims -/

/-- C1: the claim says a second build with no content changes produces
byte-identical output, re-renders zero documents and leaves the cache
unchanged.  The code keeps the last two parts but breaks the first: the
second run re-renders zero documents and the cache is unchanged, yet the
home index is re-rendered from the EMPTY list of this-build results (so its
bytes differ from the first run) and the tag page is not regenerated at
all.  This theorem evaluates the build at the failing input. -/
theorem C1_second_build_not_byte_identical :
    c1run2.map (fun o => o.renderedCount) = Except.ok 0
    ∧ c1run2.map (fun o => o.cache) = c1run1.map (fun o => o.cache)
    ∧ c1run1.map (fun o => lookupS o.outputs "public/index.html")
        ≠ c1run2.map (fun o => lookupS o.outputs "public/index.html")
    ∧ c1run2.map (fun o => lookupS o.outputs "public/tag/t/index.html")
        = Except.ok none := by
  decide

/-- C2: the claim says a single failing render is caught and logged and the
rest of the build proceeds.  In the code fut.result() re-raises the worker
exception with no handler anywhere in build, so the whole build aborts: with
two documents of which only b.md fails, the invocation yields the error and
nothing at all is written. -/
theorem C2_worker_failure_aborts_build :
    build envFail false [] [docC2a, docC2b] [] [0, 1] = Except.error "boom" := by
  decide

/-- C3, counterexample: with documents a.md and b.md undated and c.md dated
1960-01-01, and b.md completing first (a legitimate completion permutation),
the code produces the order b, a, c: the undated documents sort as the epoch
(not as the oldest value, so they beat the 1960 document) and the tie
between a and b follows completion order, not discovery order.  The order
the claim describes, the stable claimDateRel sort of the discovery-ordered
list, is c, a, b. -/
theorem C3_counterexample :
    ([1, 0, 2] : List Nat).Perm (List.range 3)
    ∧ buildC3.map (fun o => o.postList) = Except.ok [prC3b, prC3a, prC3c]
    ∧ sortB claimDateRel [prC3a, prC3b, prC3c] = [prC3c, prC3a, prC3b]
    ∧ ([prC3b, prC3a, prC3c] : List PostRef) ≠ [prC3c, prC3a, prC3b] := by
  decide

/-- C3, amended: the home-index list of every successful build is the stable
descending sort of the collected raw post list by declared date, with a
missing date defaulting to 1970-01-01 (ordinal 0): it is a permutation of
the collected list, pairwise descending on that key, and documents of equal
key keep exactly their collection (fan-in completion) order. -/
theorem C3_amended (env : BuildEnv) (force : Bool) (cache0 : Cache)
    (posts pages : List Doc) (order : List Nat) (out : BuildResult)
    (hok : build env force cache0 posts pages order = Except.ok out) :
    out.postList = sortB dateRel out.rawPosts
    ∧ List.Perm out.postList out.rawPosts
    ∧ out.postList.Pairwise (fun p q => dateKey q ≤ dateKey p)
    ∧ ∀ k : Int, out.postList.filter (fun p => decide (dateKey p = k))
        = out.rawPosts.filter (fun p => decide (dateKey p = k)) := by
  unfold build at hok
  split at hok
  · exact absurd hok (by simp)
  · rename_i results heq
    simp only [Except.ok.injEq] at hok
    subst hok
    have h1 : (assemble env force cache0 posts pages results).postList
        = sortB dateRel (assemble env force cache0 posts pages results).rawPosts := rfl
    refine ⟨h1, ?_, ?_, ?_⟩
    · rw [h1]
      exact sortB_perm dateRel _
    · rw [h1]
      refine List.Pairwise.imp ?_ (sortB_pairwise ?_ ?_ _)
      · intro a b hab
        exact of_decide_eq_true hab
      · intro a b
        rcases le_total (dateKey b) (dateKey a) with h | h
        · exact Or.inl (decide_eq_true h)
        · exact Or.inr (decide_eq_true h)
      · intro a b c hab hbc
        exact decide_eq_true (le_trans (of_decide_eq_true hbc) (of_decide_eq_true hab))
    · intro k
      rw [h1]
      exact filter_sortB_key dateKey k _

/-- C3 witness: the amended statement evaluated at the concrete three-post
build. -/
theorem C3_amended_witness :
    c3wOut.postList = sortB dateRel c3wOut.rawPosts
    ∧ List.Perm c3wOut.postList c3wOut.rawPosts
    ∧ c3wOut.postList.Pairwise (fun p q => dateKey q ≤ dateKey p)
    ∧ ∀ k : Int, c3wOut.postList.filter (fun p => decide (dateKey p = k))
        = c3wOut.rawPosts.filter (fun p => decide (dateKey p = k)) :=
  C3_amended envStd false [] [docC3a, docC3b, docC3c] [] [1, 0, 2] c3wOut (by decide)

/-- C4, counterexample: on a text that begins with the delimiter whose
structured block fails to parse, the metadata is empty as claimed but the
body is the post-delimiter remainder with leading newlines stripped, NOT the
original text unchanged. -/
theorem C4_counterexample :
    parse_front_matter yamlFailAll "---\na: 1\n---\nbody" = ([], "body")
    ∧ "body" ≠ "---\na: 1\n---\nbody" := by
  decide

/-- C4, amended: if the text does not begin with the delimiter, or splits
into fewer than three segments, the result is the empty mapping and the
original text unchanged; if the delimiter and a second delimiter are present
but the structured block fails to parse, the metadata is empty and the body
is the third segment with leading newlines stripped (the original text is
not restored). -/
theorem C4_amended (y : String → YamlResult) (t : String) :
    (pyStartswith "---" t = false → parse_front_matter y t = ([], t))
    ∧ ((pySplit "---" 2 t).length < 3 → parse_front_matter y t = ([], t))
    ∧ (∀ p0 p1 p2 e, pyStartswith "---" t = true → pySplit "---" 2 t = [p0, p1, p2] →
        y p1 = Except.error e → parse_front_matter y t = ([], lstripNL p2)) := by
  refine ⟨?_, ?_, ?_⟩
  · intro h
    unfold parse_front_matter
    rw [h]
    simp
  · intro hlen
    unfold parse_front_matter
    cases hs : pyStartswith "---" t with
    | false => simp
    | true =>
      rw [if_pos rfl]
      split
      · rename_i p0 p1 p2 hp
        rw [hp] at hlen
        simp at hlen
      · rfl
  · intro p0 p1 p2 e hs hp he
    unfold parse_front_matter
    simp [hs, hp, he, yamlMetaOf]

/-- C4 witness: the amended failure case evaluated on a concrete text and a
failing loader. -/
theorem C4_amended_witness :
    parse_front_matter yamlFailAll "---\nk\n---\n\nB" = ([], lstripNL "\n\nB") :=
  (C4_amended yamlFailAll "---\nk\n---\n\nB").2.2 "" "\nk\n" "\n\nB" "bad"
    (by decide) (by decide) (by decide)

/-- C5, counterexample: a draft document with no cache entry is discovered
and satisfies the claimed re-render condition (no entry exists), yet the
build dispatches nothing, because the draft test runs before the cache is
consulted. -/
theorem C5_counterexample :
    docC5 ∈ discover [docC5] []
    ∧ buildTasks (fun s => s) false [] [docC5] [] = []
    ∧ claimRendered (fun s => s) false [] docC5 = true := by
  decide

/-- C5, amended: a discovered document is re-rendered if and only if it
also passes the draft gate: it is a non-draft or force is set, AND force is
set, or no cache entry exists for its source path, or the stored hash
differs from the hash of its current full raw text. -/
theorem C5_amended (hf : String → String) (force : Bool) (cache : Cache)
    (posts pages : List Doc) (d : Doc) :
    d ∈ buildTasks hf force cache posts pages ↔
      d ∈ discover posts pages ∧ (d.meta.draft = false ∨ force = true) ∧
        (force = true ∨ lookupS cache d.path = none ∨
          ∃ e, lookupS cache d.path = some e ∧ e.hash ≠ hf d.text) := by
  unfold buildTasks
  rw [List.mem_filter]
  refine and_congr_right fun _ => ?_
  unfold taskPred needsRender
  cases hforce : force <;> cases hdraft : d.meta.draft <;>
    cases hl : lookupS cache d.path <;>
      simp [hl, bne_iff_ne]

/-- C5 witness: the amended equivalence evaluated at the concrete draft
document. -/
theorem C5_amended_witness :
    docC5 ∈ buildTasks (fun s => s) false [] [docC5] [] ↔
      docC5 ∈ discover [docC5] [] ∧ (docC5.meta.draft = false ∨ false = true) ∧
        (false = true ∨ lookupS ([] : Cache) docC5.path = none ∨
          ∃ e, lookupS ([] : Cache) docC5.path = some e
            ∧ e.hash ≠ (fun s : String => s) docC5.text) :=
  C5_amended (fun s => s) false [] [docC5] [] docC5

/-- C6: the after-render hooks are a left fold in registration order: the
plugin after any prefix receives the fold of that prefix, and when its hook
raises, the value passed on to the rest of the chain is exactly the fold of
the prefix, unchanged by the failing plugin, which is not skipped over in
the chain. -/
theorem C6_plugin_fold (post : Post) (ps1 ps2 : List PluginFun) (p : PluginFun)
    (h : String) :
    pluginFold (ps1 ++ p :: ps2) post h
      = pluginFold ps2 post (pluginStep post p (pluginFold ps1 post h))
    ∧ (∀ e, p post (pluginFold ps1 post h) = Except.error e →
        pluginStep post p (pluginFold ps1 post h) = pluginFold ps1 post h) := by
  constructor
  · unfold pluginFold
    rw [List.foldl_append, List.foldl_cons]
  · intro e he
    unfold pluginStep
    rw [he]

/-- C6 witness: a raising plugin A followed by B; B receives the original
html unchanged by A. -/
theorem C6_plugin_fold_witness :
    pluginFold ([] ++ pluginA :: [pluginB]) postC6 "X"
      = pluginFold [pluginB] postC6 (pluginStep postC6 pluginA (pluginFold [] postC6 "X"))
    ∧ pluginStep postC6 pluginA (pluginFold [] postC6 "X") = pluginFold [] postC6 "X" := by
  have h := C6_plugin_fold postC6 [] [pluginB] pluginA "X"
  exact ⟨h.1, h.2 "A failed" rfl⟩

/-- C7: the claim says each tag page contains exactly the documents
declaring that tag.  The membership filter tests the UN-normalized field
with the Python in operator, which on a scalar string is substring
containment: the document whose tags field is the scalar string pythonic is
listed on the page of the tag python, which it does not declare (its
normalized declaration list does not contain python), while the page itself
is written at the expected path. -/
theorem C7_taxonomy_substring_bug :
    buildC7.map (fun o => o.tagPages)
        = Except.ok [("python", [prC7x, prC7y]), ("pythonic", [prC7x])]
    ∧ (normalizeField docC7x.meta.tags).contains "python" = false
    ∧ buildC7.map (fun o => (lookupS o.outputs "public/tag/python/index.html").isSome)
        = Except.ok true := by
  decide

/-- C8, counterexample: with eight cpus and a single markdown post the pool
is sized two, exceeding the document count of one: min(cpu, max(2, n)) has
a floor of two workers. -/
theorem C8_counterexample :
    optimal_workers 8 1 = 2 ∧ 1 < optimal_workers 8 1 := by
  decide

/-- C8, amended: the pool size is bounded by the cpu count and by
max 2 (number of top-level posts); it is bounded by the post count whenever
at least two posts exist, and it never drops below two when at least two
cpus exist, so for fewer than two documents it can exceed the document
count. -/
theorem C8_amended (cpu nPosts : Nat) :
    optimal_workers cpu nPosts ≤ cpu
    ∧ optimal_workers cpu nPosts ≤ max 2 nPosts
    ∧ (2 ≤ nPosts → optimal_workers cpu nPosts ≤ nPosts)
    ∧ (2 ≤ cpu → 2 ≤ optimal_workers cpu nPosts) := by
  unfold optimal_workers
  omega

/-- C8 witness: the amended bounds at four cpus and five posts. -/
theorem C8_amended_witness :
    optimal_workers 4 5 ≤ 4 ∧ optimal_workers 4 5 ≤ max 2 5
    ∧ optimal_workers 4 5 ≤ 5 ∧ 2 ≤ optimal_workers 4 5 := by
  have h := C8_amended 4 5
  exact ⟨h.1, h.2.1, h.2.2.1 (by decide), h.2.2.2 (by decide)⟩

/-- C9, counterexample: after building a drafted document the cache holds no
entry for it; un-drafting the file (which edits its text) therefore DOES
trigger a re-render on the next build, since the absence of an entry
satisfies the dispatch condition, contrary to the claim that no re-render is
triggered. -/
theorem C9_counterexample :
    c9cache1 = []
    ∧ lookupS c9cache1 docC9undrafted.path = none
    ∧ docC9undrafted ∈ buildTasks envStd.hashFn false c9cache1 [docC9undrafted] [] := by
  decide

/-- C9, amended: without force, draft documents get no cache entry (their
cache row is exactly the incoming one), and consequently a document with no
cache entry that is later seen as a non-draft IS dispatched for render on
that build. -/
theorem C9_amended (env : BuildEnv) (cache0 : Cache) (posts pages : List Doc)
    (order : List Nat) (out : BuildResult)
    (hnd : (discover posts pages).Pairwise (fun a b => a.path ≠ b.path))
    (hok : build env false cache0 posts pages order = Except.ok out) :
    (∀ d ∈ discover posts pages, d.meta.draft = true →
        lookupS out.cache d.path = lookupS cache0 d.path)
    ∧ (∀ d ∈ discover posts pages, d.meta.draft = false →
        lookupS cache0 d.path = none →
        d ∈ buildTasks env.hashFn false cache0 posts pages) := by
  constructor
  · intro d hmem hdraft
    unfold build at hok
    split at hok
    · exact absurd hok (by simp)
    · rename_i results heq
      simp only [Except.ok.injEq] at hok
      subst hok
      apply assemble_cache_untouched
      intro r hr hsrc
      have h1 : Except.ok r ∈ applyOrder order
          ((buildTasks env.hashFn false cache0 posts pages).map
            (render_post_worker env.workerHtml env.site)) :=
        collectResults_mem heq r hr
      have h2 := applyOrder_mem h1
      rcases List.mem_map.mp h2 with ⟨e, hemem, heqr⟩
      have hesrc : r.src = e.path := worker_src heqr
      have hedraft : e.meta.draft = false := mem_buildTasks_not_draft hemem
      have hedisc : e ∈ discover posts pages := by
        unfold buildTasks at hemem
        exact List.mem_of_mem_filter hemem
      have hne : e ≠ d := by
        intro hedd
        rw [hedd, hdraft] at hedraft
        exact Bool.noConfusion hedraft
      have hsym : Symmetric (fun a b : Doc => a.path ≠ b.path) :=
        fun x y hxy hyx => hxy hyx.symm
      have hpaths : e.path ≠ d.path := List.Pairwise.forall hsym hnd hedisc hmem hne
      rw [hesrc] at hsrc
      exact hpaths hsrc
  · intro d hmem hdraft hcache
    unfold buildTasks
    refine List.mem_filter.mpr ⟨hmem, ?_⟩
    unfold taskPred needsRender
    rw [hdraft, hcache]
    simp

/-- C9 witness: the amended statement at a concrete build of one draft and
one plain document. -/
theorem C9_amended_witness :
    (∀ d ∈ discover [docC9draft, docC9plain] [], d.meta.draft = true →
        lookupS c9wOut.cache d.path = lookupS ([] : Cache) d.path)
    ∧ (∀ d ∈ discover [docC9draft, docC9plain] [], d.meta.draft = false →
        lookupS ([] : Cache) d.path = none →
        d ∈ buildTasks envStd.hashFn false [] [docC9draft, docC9plain] []) :=
  C9_amended envStd [] [docC9draft, docC9plain] [] [0] c9wOut (by decide) (by decide)

/-- C10: when the front matter declares slug as a falsy value (the empty
string) the worker derives the slug from the filename stem; only a
non-empty explicit slug wins over the stem, because the source computes
meta.get("slug") or src_path.stem. -/
theorem C10_slug_falsy (w : SiteMeta → Doc → Except String String) (site : SiteMeta)
    (d : Doc) (out : RenderResult)
    (hok : render_post_worker w site d = Except.ok out) :
    (d.meta.slugField = some "" → out.slug = pathStem d.path)
    ∧ (∀ s, d.meta.slugField = some s → s ≠ "" → out.slug = s) := by
  have hs := worker_slug hok
  constructor
  · intro h0
    rw [hs, h0]
    simp [resolveSlug]
  · intro s hsf hne
    rw [hs, hsf]
    simp [resolveSlug, hne]

/-- C10 witness: a document declaring slug as the empty string renders with
the stem of its filename as slug. -/
theorem C10_slug_falsy_witness : c10out.slug = pathStem "posts/my-note.md" :=
  (C10_slug_falsy (fun _ _ => Except.ok "H") {} docC10 c10out (by decide)).1 rfl

end Blazemark
